import Mathlib

/-!
Shallow embedding of `bezier_lib` (`src/lib.rs`): interactive editing of cubic
Bézier curves.  Machine floats (`f32`) are modelled by `ℚ`, Bevy `Entity`
identifiers by `Nat`, and panics (`unwrap` / `assert!`) by `Option` results
(`none` = panic).  The three event handlers are modelled as pure functions from
their inputs (target entity, pointer data, the query's rows, the drag resource)
to the effects they perform (visibility commands, the new drag state).
-/

namespace BezierLib

/-- Model of `bevy::math::Vec2` (two `f32` coordinates, embedded as `ℚ`). -/
structure Vec2 where
  x : ℚ
  y : ℚ
deriving DecidableEq, Repr

/-- Model of `bevy::color::Color` as an rgba quadruple. -/
structure Color where
  red : ℚ
  green : ℚ
  blue : ℚ
  alpha : ℚ
deriving DecidableEq, Repr

/-- `Color::srgba` constructor. -/
def Color.srgba (r g b a : ℚ) : Color := ⟨r, g, b, a⟩

/-- `Color::srgba_u8` constructor: byte channels scaled to `[0,1]`. -/
def Color.srgba_u8 (r g b a : Nat) : Color :=
  ⟨(r : ℚ) / 255, (g : ℚ) / 255, (b : ℚ) / 255, (a : ℚ) / 255⟩

/-- `enum BezierShapeType` from the source (the `#[default]` variant is `Start`). -/
inductive BezierShapeType where
  | Start
  | ControlStart
  | ControlEnd
  | End
  | Line
  | BezierLine
deriving DecidableEq, Repr, Fintype

/-- `struct BezierShape`: the curve tag carried by a primitive. -/
structure BezierShape where
  shape_type : BezierShapeType
  id : Nat
  point : Option Vec2
deriving DecidableEq, Repr

/-- `enum ShapeType`: the component attached to every primitive. -/
inductive ShapeType where
  | Intersection
  | Main
  | Sketch
  | Bezier (shape : BezierShape)
deriving DecidableEq, Repr

/-- `struct BezierStyle`. -/
structure BezierStyle where
  intersection_color : Color
  intersection_radius : ℚ
  sketch_color : Color
  bezier_stroke_width : ℚ
  sketch_stroke_width : ℚ
  bezier_line_color : Color
deriving DecidableEq, Repr

/-- `impl Default for BezierStyle`. -/
def BezierStyle.default : BezierStyle :=
  { intersection_color := Color.srgba 1 0 0 1
    sketch_color := Color.srgba (1/2) (1/2) (1/2) 1
    intersection_radius := 6
    bezier_stroke_width := 4
    sketch_stroke_width := 1
    bezier_line_color := Color.srgba_u8 200 172 110 255 }

/-- `struct BezierDrag`: the drag-state resource. `entity` is the hidden
dragged primitive's identifier. -/
structure BezierDrag where
  bezier_id : Nat
  entity : Option Nat
  dragging : BezierShapeType
  start_click : Option Vec2
  a : Option Vec2
  b : Option Vec2
  c : Option Vec2
  d : Option Vec2
deriving DecidableEq, Repr

/-- `BezierDrag::default()` (derived `Default`: zero id, `None` options, and the
`#[default]` shape type `Start`). -/
def BezierDrag.default : BezierDrag :=
  { bezier_id := 0
    entity := none
    dragging := BezierShapeType.Start
    start_click := none
    a := none
    b := none
    c := none
    d := none }

/-- `BezierDrag::clear_drag`: reset every field except `dragging` (the source
assigns `bezier_id = 0` and `None` to the five `Option` fields, and nothing
else). -/
def BezierDrag.clear_drag (s : BezierDrag) : BezierDrag :=
  { s with
    bezier_id := 0
    entity := none
    start_click := none
    a := none
    b := none
    c := none
    d := none }

/-- `BezierDrag::add_delta`: apply a pointer delta according to the role being
dragged.  Each `unwrap()` in the source becomes an `Option.map`/`Option.bind`,
so `none` models the panic on a missing anchor. -/
def BezierDrag.add_delta (s : BezierDrag) (delta : Vec2) : Option BezierDrag :=
  match s.dragging with
  | BezierShapeType.Start =>
      s.a.map (fun point => { s with a := some ⟨point.x + delta.x, point.y - delta.y⟩ })
  | BezierShapeType.ControlStart =>
      s.b.map (fun point => { s with b := some ⟨point.x + delta.x, point.y - delta.y⟩ })
  | BezierShapeType.ControlEnd =>
      s.c.map (fun point => { s with c := some ⟨point.x + delta.x, point.y - delta.y⟩ })
  | BezierShapeType.End =>
      s.d.map (fun point => { s with d := some ⟨point.x + delta.x, point.y - delta.y⟩ })
  | BezierShapeType.Line => some s
  | BezierShapeType.BezierLine =>
      s.a.bind (fun pa =>
        let s1 := { s with a := some ⟨pa.x + delta.x, pa.y - delta.y⟩ }
        s1.b.bind (fun pb =>
          let s2 := { s1 with b := some ⟨pb.x + delta.x, pb.y - delta.y⟩ }
          s2.c.bind (fun pc =>
            let s3 := { s2 with c := some ⟨pc.x + delta.x, pc.y - delta.y⟩ }
            s3.d.map (fun pd => { s3 with d := some ⟨pd.x + delta.x, pd.y - delta.y⟩ }))))

/-- Model of the `bevy_prototype_lyon` `Shape` geometry that `bezier_open`
builds: a filled circle, a stroked cubic Bézier path, or a stroked segment. -/
inductive Shape where
  | circleFill (radius : ℚ) (center : Vec2) (fill : Color)
  | cubicBezierStroke (start c1 c2 stop : Vec2) (color : Color) (width : ℚ)
  | lineStroke (p q : Vec2) (color : Color) (width : ℚ)
deriving DecidableEq, Repr

/-- `new_id`: the allocator locks the global counter, increments it and returns
the new value.  Modelled as a state transformer on the counter. -/
def new_id (bezier_id : Nat) : Nat × Nat :=
  (bezier_id + 1, bezier_id + 1)

/-- `n` sequential calls of `new_id` starting from counter value `c`
(the static `BEZIER_ID` starts at `0`): the list of returned ids. -/
def run_new_ids : Nat → Nat → List Nat
  | _, 0 => []
  | c, Nat.succ n => (new_id c).1 :: run_new_ids (new_id c).2 n

/-- `bezier_open`: build the per-curve primitives in source push order. -/
def bezier_open (style : BezierStyle) (id : Nat) (a b c d : Vec2) :
    List (Shape × ShapeType) :=
  let radius := style.intersection_radius - 1
  let stroke := style.sketch_stroke_width
  let thick_stroke_width := style.bezier_stroke_width
  let i_color := style.intersection_color
  let color := style.sketch_color
  let bezier_color := style.bezier_line_color
  [ (Shape.circleFill radius a i_color,
      ShapeType.Bezier ⟨BezierShapeType.Start, id, some a⟩),
    (Shape.cubicBezierStroke a b c d bezier_color thick_stroke_width,
      ShapeType.Bezier ⟨BezierShapeType.BezierLine, id, none⟩),
    (Shape.lineStroke a b color stroke,
      ShapeType.Bezier ⟨BezierShapeType.Line, id, none⟩),
    (Shape.circleFill radius b i_color,
      ShapeType.Bezier ⟨BezierShapeType.ControlStart, id, some b⟩),
    (Shape.lineStroke b c color stroke,
      ShapeType.Bezier ⟨BezierShapeType.Line, id, none⟩),
    (Shape.circleFill radius c i_color,
      ShapeType.Bezier ⟨BezierShapeType.ControlEnd, id, some c⟩),
    (Shape.lineStroke c d color stroke,
      ShapeType.Bezier ⟨BezierShapeType.Line, id, none⟩),
    (Shape.circleFill radius d i_color,
      ShapeType.Bezier ⟨BezierShapeType.End, id, some d⟩) ]

/-- One row of the handlers' ECS query `(Entity, &mut Shape, &ShapeType)`. -/
structure Prim where
  entity : Nat
  shape : Shape
  ty : ShapeType
deriving DecidableEq, Repr

/-- The effects of a `drag_start` run that did not panic: which entities got
`Visibility::Hidden` inserted, and the resulting drag resource. -/
structure DragStartOut where
  hidden : List Nat
  drag : BezierDrag
deriving DecidableEq, Repr

/-- One iteration of `drag_start`'s scan loop: a primitive tagged with the
matching curve id copies its (unwrapped) position into the anchor slot named by
its role; `Line`/`BezierLine` and foreign primitives change nothing.  `none`
models the `unwrap()` panic on an anchor tag with no position. -/
def scanPoint (bezier_id : Nat) (drag : BezierDrag) (p : Prim) : Option BezierDrag :=
  match p.ty with
  | ShapeType.Bezier bezier_shape =>
      if bezier_shape.id = bezier_id then
        match bezier_shape.shape_type with
        | BezierShapeType.Start =>
            bezier_shape.point.map (fun point => { drag with a := some point })
        | BezierShapeType.ControlStart =>
            bezier_shape.point.map (fun point => { drag with b := some point })
        | BezierShapeType.ControlEnd =>
            bezier_shape.point.map (fun point => { drag with c := some point })
        | BezierShapeType.End =>
            bezier_shape.point.map (fun point => { drag with d := some point })
        | BezierShapeType.Line => some drag
        | BezierShapeType.BezierLine => some drag
      else some drag
  | _ => some drag

/-- `drag_start`'s `for` loop over every query row. -/
def scan_points (bezier_id : Nat) : BezierDrag → List Prim → Option BezierDrag
  | drag, [] => some drag
  | drag, p :: rest =>
      match scanPoint bezier_id drag p with
      | none => none
      | some d1 => scan_points bezier_id d1 rest

/-- `drag_start` handler.  `target` is `click.target`, `pointer_position` is
`click.event().pointer_location.position`, `query` the live rows, `drag` the
resource.  Outcomes: target not in the query → early return with no effect;
target found → `Visibility::Hidden` is inserted first, then a non-`Bezier` tag
causes an early return with the drag state untouched; otherwise the header
fields are set, the scan loop fills the anchor slots, and the four trailing
`assert!(… .is_some())` either pass (`some`) or panic (`none`). -/
def drag_start (target : Nat) (pointer_position : Vec2) (query : List Prim)
    (drag : BezierDrag) : Option DragStartOut :=
  match query.find? (fun p => p.entity == target) with
  | none => some ⟨[], drag⟩
  | some prim =>
      match prim.ty with
      | ShapeType.Bezier bezier_shape =>
          let d0 : BezierDrag :=
            { drag with
              bezier_id := bezier_shape.id
              entity := some prim.entity
              start_click := some pointer_position
              dragging := bezier_shape.shape_type }
          match scan_points bezier_shape.id d0 query with
          | none => none
          | some d1 =>
              if d1.a.isSome && d1.b.isSome && d1.c.isSome && d1.d.isSome then
                some ⟨[prim.entity], d1⟩
              else none
      | _ => some ⟨[prim.entity], drag⟩

/-- `drag_end` handler: despawn the entity stored in the drag resource
(`unwrap()` panic — `none` — when that reference is absent), then
`clear_drag`.  Returns the despawned entity and the reset state. -/
def drag_end (drag : BezierDrag) : Option (Nat × BezierDrag) :=
  match drag.entity with
  | none => none
  | some e => some (e, drag.clear_drag)

/-- The four anchor roles. -/
def isAnchor : BezierShapeType → Bool
  | BezierShapeType.Start => true
  | BezierShapeType.ControlStart => true
  | BezierShapeType.ControlEnd => true
  | BezierShapeType.End => true
  | BezierShapeType.Line => false
  | BezierShapeType.BezierLine => false

/-- The drag-state slot written by each anchor role. -/
def anchorSlot (drag : BezierDrag) : BezierShapeType → Option Vec2
  | BezierShapeType.Start => drag.a
  | BezierShapeType.ControlStart => drag.b
  | BezierShapeType.ControlEnd => drag.c
  | BezierShapeType.End => drag.d
  | BezierShapeType.Line => none
  | BezierShapeType.BezierLine => none

/-- Claim C1 (counterexample): `bezier_open` returns 8 primitives, not the 9
the claim states — at the concrete input (default style, id 7, the unit-square
points) its output has length 8, so "exactly 9 primitives" is false. -/
theorem bezier_open_length_not_nine :
    (bezier_open BezierStyle.default 7 ⟨0, 0⟩ ⟨10, 0⟩ ⟨10, 10⟩ ⟨0, 10⟩).length = 8 ∧
    ((bezier_open BezierStyle.default 7 ⟨0, 0⟩ ⟨10, 0⟩ ⟨10, 10⟩ ⟨0, 10⟩).length = 9 → False) := by
  constructor
  · rfl
  · intro h
    simp [bezier_open] at h

/-- Claim C1 (amended): for every style, curve id and four input points,
`bezier_open` returns exactly 8 primitives — 4 tagged with the anchor roles
`Start`, `ControlStart`, `ControlEnd`, `End`, each carrying its input position
unchanged in its tag, 3 tagged `Line` and 1 tagged `BezierLine` carrying no
position — and every one of the 8 is tagged with the supplied curve id. -/
theorem bezier_open_primitives (style : BezierStyle) (id : Nat) (a b c d : Vec2) :
    (bezier_open style id a b c d).map Prod.snd =
      [ShapeType.Bezier ⟨BezierShapeType.Start, id, some a⟩,
       ShapeType.Bezier ⟨BezierShapeType.BezierLine, id, none⟩,
       ShapeType.Bezier ⟨BezierShapeType.Line, id, none⟩,
       ShapeType.Bezier ⟨BezierShapeType.ControlStart, id, some b⟩,
       ShapeType.Bezier ⟨BezierShapeType.Line, id, none⟩,
       ShapeType.Bezier ⟨BezierShapeType.ControlEnd, id, some c⟩,
       ShapeType.Bezier ⟨BezierShapeType.Line, id, none⟩,
       ShapeType.Bezier ⟨BezierShapeType.End, id, some d⟩] ∧
    (bezier_open style id a b c d).length = 8 :=
  ⟨rfl, rfl⟩

/-- Claim C3: when the dragged role is an anchor role and the four anchors are
present, `add_delta` moves exactly that role's anchor from `(x, y)` to
`(x + dx, y - dy)` and leaves the other three anchors (and every other field)
unchanged — the conclusion's record updates touch only the moved slot. -/
theorem add_delta_anchor_moves (s : BezierDrag) (delta : Vec2) (pa pb pc pd : Vec2)
    (ha : s.a = some pa) (hb : s.b = some pb) (hc : s.c = some pc) (hd : s.d = some pd) :
    (s.dragging = BezierShapeType.Start →
      s.add_delta delta = some { s with a := some ⟨pa.x + delta.x, pa.y - delta.y⟩ }) ∧
    (s.dragging = BezierShapeType.ControlStart →
      s.add_delta delta = some { s with b := some ⟨pb.x + delta.x, pb.y - delta.y⟩ }) ∧
    (s.dragging = BezierShapeType.ControlEnd →
      s.add_delta delta = some { s with c := some ⟨pc.x + delta.x, pc.y - delta.y⟩ }) ∧
    (s.dragging = BezierShapeType.End →
      s.add_delta delta = some { s with d := some ⟨pd.x + delta.x, pd.y - delta.y⟩ }) := by
  refine ⟨fun h => ?_, fun h => ?_, fun h => ?_, fun h => ?_⟩ <;>
    simp [BezierDrag.add_delta, h, ha, hb, hc, hd]

/-- Claim C3 witness (the spec's full-cycle scenario): curve 7 with
`a = (0,0)`, `b = (10,0)`, `c = (10,10)`, `d = (0,10)`, dragging `Start` by
`delta = (5,-5)` yields `a = (5,5)` with `b`, `c`, `d` unchanged. -/
theorem add_delta_anchor_moves_witness :
    BezierDrag.add_delta
      { bezier_id := 7, entity := none, dragging := BezierShapeType.Start,
        start_click := none, a := some ⟨0, 0⟩, b := some ⟨10, 0⟩,
        c := some ⟨10, 10⟩, d := some ⟨0, 10⟩ } ⟨5, -5⟩ =
    some { bezier_id := 7, entity := none, dragging := BezierShapeType.Start,
           start_click := none, a := some ⟨5, 5⟩, b := some ⟨10, 0⟩,
           c := some ⟨10, 10⟩, d := some ⟨0, 10⟩ } := by
  have h := (add_delta_anchor_moves
      { bezier_id := 7, entity := none, dragging := BezierShapeType.Start,
        start_click := none, a := some ⟨0, 0⟩, b := some ⟨10, 0⟩,
        c := some ⟨10, 10⟩, d := some ⟨0, 10⟩ }
      ⟨5, -5⟩ ⟨0, 0⟩ ⟨10, 0⟩ ⟨10, 10⟩ ⟨0, 10⟩ rfl rfl rfl rfl).1 rfl
  rw [h]
  norm_num

/-- Claim C4: when the dragged role is `BezierLine` and the four anchors are
present, `add_delta` translates all four anchors by the identical displacement
`(dx, -dy)`. -/
theorem add_delta_bezier_line_translates (s : BezierDrag) (delta : Vec2)
    (pa pb pc pd : Vec2) (hrole : s.dragging = BezierShapeType.BezierLine)
    (ha : s.a = some pa) (hb : s.b = some pb) (hc : s.c = some pc) (hd : s.d = some pd) :
    s.add_delta delta = some { s with
      a := some ⟨pa.x + delta.x, pa.y - delta.y⟩,
      b := some ⟨pb.x + delta.x, pb.y - delta.y⟩,
      c := some ⟨pc.x + delta.x, pc.y - delta.y⟩,
      d := some ⟨pd.x + delta.x, pd.y - delta.y⟩ } := by
  simp [BezierDrag.add_delta, hrole, ha, hb, hc, hd]

/-- Claim C4 witness: dragging the whole curve of the full-cycle scenario by
`(5,-5)` moves all four anchors by `(5, 5)`. -/
theorem add_delta_bezier_line_translates_witness :
    BezierDrag.add_delta
      { bezier_id := 7, entity := none, dragging := BezierShapeType.BezierLine,
        start_click := none, a := some ⟨0, 0⟩, b := some ⟨10, 0⟩,
        c := some ⟨10, 10⟩, d := some ⟨0, 10⟩ } ⟨5, -5⟩ =
    some { bezier_id := 7, entity := none, dragging := BezierShapeType.BezierLine,
           start_click := none, a := some ⟨5, 5⟩, b := some ⟨15, 5⟩,
           c := some ⟨15, 15⟩, d := some ⟨5, 15⟩ } := by
  have h := add_delta_bezier_line_translates
      { bezier_id := 7, entity := none, dragging := BezierShapeType.BezierLine,
        start_click := none, a := some ⟨0, 0⟩, b := some ⟨10, 0⟩,
        c := some ⟨10, 10⟩, d := some ⟨0, 10⟩ }
      ⟨5, -5⟩ ⟨0, 0⟩ ⟨10, 0⟩ ⟨10, 10⟩ ⟨0, 10⟩ rfl rfl rfl rfl rfl
  rw [h]
  norm_num

/-- Claim C5: when the dragged role is `Line`, `add_delta` is a no-op — it
returns the state completely unchanged. -/
theorem add_delta_line_noop (s : BezierDrag) (delta : Vec2)
    (hrole : s.dragging = BezierShapeType.Line) :
    s.add_delta delta = some s := by
  simp [BezierDrag.add_delta, hrole]

/-- Claim C5 witness: a concrete `Line`-role drag state is unchanged by a
concrete delta. -/
theorem add_delta_line_noop_witness :
    BezierDrag.add_delta
      { bezier_id := 7, entity := some 3, dragging := BezierShapeType.Line,
        start_click := some ⟨1, 2⟩, a := some ⟨0, 0⟩, b := some ⟨10, 0⟩,
        c := some ⟨10, 10⟩, d := some ⟨0, 10⟩ } ⟨5, -5⟩ =
    some { bezier_id := 7, entity := some 3, dragging := BezierShapeType.Line,
           start_click := some ⟨1, 2⟩, a := some ⟨0, 0⟩, b := some ⟨10, 0⟩,
           c := some ⟨10, 10⟩, d := some ⟨0, 10⟩ } :=
  add_delta_line_noop
    { bezier_id := 7, entity := some 3, dragging := BezierShapeType.Line,
      start_click := some ⟨1, 2⟩, a := some ⟨0, 0⟩, b := some ⟨10, 0⟩,
      c := some ⟨10, 10⟩, d := some ⟨0, 10⟩ } ⟨5, -5⟩ rfl

/-- Claim C7: `clear_drag` puts the state into its idle form — curve id `0`
and all five optional fields empty — and `drag_end` despawns exactly the
entity referenced by the active-primitive slot and then resets the state,
panicking (`none`) when that reference is absent. -/
theorem clear_drag_idle_and_drag_end (s : BezierDrag) :
    s.clear_drag.bezier_id = 0 ∧ s.clear_drag.entity = none ∧
    s.clear_drag.start_click = none ∧ s.clear_drag.a = none ∧
    s.clear_drag.b = none ∧ s.clear_drag.c = none ∧ s.clear_drag.d = none ∧
    (s.entity = none → drag_end s = none) ∧
    (∀ e : Nat, s.entity = some e → drag_end s = some (e, s.clear_drag)) := by
  refine ⟨rfl, rfl, rfl, rfl, rfl, rfl, rfl, fun h => ?_, fun e h => ?_⟩ <;>
    simp [drag_end, h]

/-- Claim C7 witness: ending a drag whose hidden primitive is entity `3`
despawns entity `3` and returns the default (idle) state. -/
theorem clear_drag_idle_and_drag_end_witness :
    drag_end { BezierDrag.default with bezier_id := 7, entity := some 3 } =
      some (3, BezierDrag.default) := by
  have h := (clear_drag_idle_and_drag_end
      { BezierDrag.default with bezier_id := 7, entity := some 3 }).2.2.2.2.2.2.2.2 3 rfl
  rw [h]
  rfl

/-- Claim C8: `n` sequential calls of `new_id` starting from the initial
counter `0` return exactly the contiguous increasing sequence `1, 2, …, n`:
`n` values, no duplicates, no gaps, and `0` is never returned. -/
theorem new_id_sequential (n : Nat) :
    run_new_ids 0 n = List.range' 1 n ∧
    (run_new_ids 0 n).length = n ∧
    (run_new_ids 0 n).Nodup ∧
    (0 : Nat) ∉ run_new_ids 0 n := by
  have key : ∀ m c : Nat, run_new_ids c m = List.range' (c + 1) m := by
    intro m
    induction m with
    | zero => intro c; rfl
    | succ k ih =>
        intro c
        rw [List.range'_succ]
        simpa [run_new_ids, new_id] using ih (c + 1)
  refine ⟨key n 0, ?_, ?_, ?_⟩
  · rw [key n 0]; exact List.length_range' 1 1 n
  · rw [key n 0]; exact List.nodup_range' 1 n
  · rw [key n 0]
    intro h
    have := (List.mem_range'_1.mp h).1
    omega

/-- Claim C9 (implicit): `clear_drag` does not touch the non-optional
`dragging` field — it survives the reset — while every other field is returned
to its default/empty value. -/
theorem clear_drag_preserves_dragging (s : BezierDrag) :
    s.clear_drag.dragging = s.dragging ∧
    s.clear_drag = { bezier_id := 0, entity := none, dragging := s.dragging,
                     start_click := none, a := none, b := none, c := none, d := none } :=
  ⟨rfl, rfl⟩

/-- Claim C10 (implicit): `add_delta` is partial — on the default-constructed
state (role `Start`, `a = none`) every call panics (`none`) — and it is total
whenever all four anchor positions are present. -/
theorem add_delta_partial_total (delta : Vec2) :
    (BezierDrag.default.dragging = BezierShapeType.Start ∧
     BezierDrag.default.a = none ∧
     BezierDrag.default.add_delta delta = none) ∧
    (∀ s : BezierDrag, s.a.isSome → s.b.isSome → s.c.isSome → s.d.isSome →
      (s.add_delta delta).isSome) := by
  constructor
  · exact ⟨rfl, rfl, rfl⟩
  · intro s ha hb hc hd
    obtain ⟨pa, ha⟩ := Option.isSome_iff_exists.mp ha
    obtain ⟨pb, hb⟩ := Option.isSome_iff_exists.mp hb
    obtain ⟨pc, hc⟩ := Option.isSome_iff_exists.mp hc
    obtain ⟨pd, hd⟩ := Option.isSome_iff_exists.mp hd
    cases h : s.dragging <;> simp [BezierDrag.add_delta, h, ha, hb, hc, hd]

/-- Claim C10 witness: the default state panics on a concrete delta, while a
fully populated state succeeds on the same delta. -/
theorem add_delta_partial_total_witness :
    BezierDrag.default.add_delta ⟨1, 2⟩ = none ∧
    (BezierDrag.add_delta
      { BezierDrag.default with
          a := some ⟨0, 0⟩, b := some ⟨1, 0⟩,
          c := some ⟨1, 1⟩, d := some ⟨0, 1⟩ } ⟨1, 2⟩).isSome := by
  refine ⟨(add_delta_partial_total ⟨1, 2⟩).1.2.2,
    (add_delta_partial_total ⟨1, 2⟩).2
      { BezierDrag.default with
          a := some ⟨0, 0⟩, b := some ⟨1, 0⟩,
          c := some ⟨1, 1⟩, d := some ⟨0, 1⟩ } rfl rfl rfl rfl⟩

/-- Claim C2 (counterexample): pointer-down on the non-curve primitive
(entity 5, tagged `Main`) is not free of side effects: `drag_start` inserts
`Visibility::Hidden` on entity 5 before discovering that the tag is not
`Bezier`, so the hidden-entity effect list is `[5]`, not `[]`. -/
theorem drag_start_non_bezier_not_noop :
    drag_start 5 ⟨1, 2⟩
      [⟨5, Shape.circleFill 5 ⟨0, 0⟩ (Color.srgba 1 0 0 1), ShapeType.Main⟩]
      BezierDrag.default =
      some ⟨[5], BezierDrag.default⟩ ∧
    drag_start 5 ⟨1, 2⟩
      [⟨5, Shape.circleFill 5 ⟨0, 0⟩ (Color.srgba 1 0 0 1), ShapeType.Main⟩]
      BezierDrag.default ≠
      some ⟨[], BezierDrag.default⟩ := by
  constructor
  · rfl
  · intro h
    have : ([5] : List Nat) = [] := congrArg DragStartOut.hidden (Option.some.inj h)
    simp at this

/-- Claim C2 (amended): pointer-down on a primitive that is in the query but
not curve-tagged hides that primitive (`Visibility::Hidden`) and then returns
early: Drag State is left completely unchanged and no other effect occurs. -/
theorem drag_start_non_bezier_only_hides (target : Nat) (pos : Vec2)
    (query : List Prim) (drag : BezierDrag) (prim : Prim)
    (hfind : query.find? (fun p => p.entity == target) = some prim)
    (hty : ∀ bs : BezierShape, prim.ty ≠ ShapeType.Bezier bs) :
    drag_start target pos query drag = some ⟨[prim.entity], drag⟩ := by
  unfold drag_start
  rw [hfind]
  dsimp only
  cases h : prim.ty
  case Bezier bs => exact absurd h (hty bs)
  all_goals rfl

/-- Claim C2 witness: clicking the `Sketch`-tagged entity 9 hides entity 9 and
leaves the default drag state untouched. -/
theorem drag_start_non_bezier_only_hides_witness :
    drag_start 9 ⟨0, 0⟩
      [⟨9, Shape.circleFill 2 ⟨1, 1⟩ (Color.srgba 0 0 0 1), ShapeType.Sketch⟩]
      BezierDrag.default =
      some ⟨[9], BezierDrag.default⟩ :=
  drag_start_non_bezier_only_hides 9 ⟨0, 0⟩
    [⟨9, Shape.circleFill 2 ⟨1, 1⟩ (Color.srgba 0 0 0 1), ShapeType.Sketch⟩]
    BezierDrag.default
    ⟨9, Shape.circleFill 2 ⟨1, 1⟩ (Color.srgba 0 0 0 1), ShapeType.Sketch⟩
    rfl (fun bs h => by cases h)

/-- A scan step cannot panic when every anchor-role tag of the scanned curve id
carried by `p` has a position. -/
theorem scanPoint_isSome (i : Nat) (d : BezierDrag) (p : Prim)
    (h : ∀ bs : BezierShape, p.ty = ShapeType.Bezier bs → bs.id = i →
      isAnchor bs.shape_type = true → bs.point.isSome) :
    (scanPoint i d p).isSome := by
  unfold scanPoint
  cases hty : p.ty with
  | Intersection => simp
  | Main => simp
  | Sketch => simp
  | Bezier bs =>
      by_cases hid : bs.id = i
      · simp only [if_pos hid]
        cases hrole : bs.shape_type <;>
          simp only [Option.isSome_map', Option.isSome_some] <;>
          first
            | rfl
            | exact h bs hty hid (by simp [isAnchor, hrole])
      · simp [hid]

/-- A scan step never touches the header fields of the drag state. -/
theorem scanPoint_fields (i : Nat) (d d1 : BezierDrag) (p : Prim)
    (h : scanPoint i d p = some d1) :
    d1.bezier_id = d.bezier_id ∧ d1.entity = d.entity ∧
    d1.dragging = d.dragging ∧ d1.start_click = d.start_click := by
  unfold scanPoint at h
  split at h
  · split at h
    · split at h <;>
        first
          | (obtain ⟨pt, hpt, rfl⟩ := Option.map_eq_some'.mp h
             exact ⟨rfl, rfl, rfl, rfl⟩)
          | (obtain rfl := Option.some.inj h
             exact ⟨rfl, rfl, rfl, rfl⟩)
    · obtain rfl := Option.some.inj h
      exact ⟨rfl, rfl, rfl, rfl⟩
  · obtain rfl := Option.some.inj h
    exact ⟨rfl, rfl, rfl, rfl⟩

/-- A scan step leaves the slot of role `r` unchanged when `p` does not carry a
matching `(id, role)` tag. -/
theorem scanPoint_slot_other (i : Nat) (r : BezierShapeType) (d d1 : BezierDrag)
    (p : Prim) (h : scanPoint i d p = some d1)
    (hnm : ∀ bs : BezierShape, p.ty = ShapeType.Bezier bs →
      ¬(bs.id = i ∧ bs.shape_type = r)) :
    anchorSlot d1 r = anchorSlot d r := by
  unfold scanPoint at h
  cases hty : p.ty with
  | Intersection => rw [hty] at h; obtain rfl := Option.some.inj h; rfl
  | Main => rw [hty] at h; obtain rfl := Option.some.inj h; rfl
  | Sketch => rw [hty] at h; obtain rfl := Option.some.inj h; rfl
  | Bezier bs =>
      rw [hty] at h
      dsimp only at h
      by_cases hid : bs.id = i
      · rw [if_pos hid] at h
        have hne : bs.shape_type ≠ r := fun hr => hnm bs hty ⟨hid, hr⟩
        cases hrole : bs.shape_type <;> rw [hrole] at h <;>
          first
            | (obtain rfl := Option.some.inj h; rfl)
            | (obtain ⟨pt, hpt, rfl⟩ := Option.map_eq_some'.mp h
               rw [hrole] at hne
               cases r <;> first | rfl | exact absurd rfl hne)
      · rw [if_neg hid] at h
        obtain rfl := Option.some.inj h
        rfl

/-- A successful scan step over a matching anchor tag writes that tag's
position into the slot of its role. -/
theorem scanPoint_slot_match (i : Nat) (d d1 : BezierDrag) (p : Prim)
    (bs : BezierShape) (h : scanPoint i d p = some d1)
    (hty : p.ty = ShapeType.Bezier bs) (hid : bs.id = i)
    (hr : isAnchor bs.shape_type = true) :
    anchorSlot d1 bs.shape_type = bs.point := by
  unfold scanPoint at h
  rw [hty] at h
  dsimp only at h
  rw [if_pos hid] at h
  cases hrole : bs.shape_type <;> rw [hrole] at h <;>
    first
      | (obtain ⟨pt, hpt, rfl⟩ := Option.map_eq_some'.mp h
         rw [hpt]
         rfl)
      | (rw [hrole] at hr; simp [isAnchor] at hr)

/-- The scan loop cannot panic when every anchor-role tag of the scanned curve
id in the query has a position. -/
theorem scan_points_isSome (i : Nat) :
    ∀ (q : List Prim) (d : BezierDrag),
      (∀ p ∈ q, ∀ bs : BezierShape, p.ty = ShapeType.Bezier bs → bs.id = i →
        isAnchor bs.shape_type = true → bs.point.isSome) →
      (scan_points i d q).isSome := by
  intro q
  induction q with
  | nil => intro d _; simp [scan_points]
  | cons p rest ih =>
      intro d hall
      have hstep := scanPoint_isSome i d p
        (fun bs hty hid hr => hall p (List.mem_cons_self p rest) bs hty hid hr)
      obtain ⟨dmid, hmid⟩ := Option.isSome_iff_exists.mp hstep
      have := ih dmid (fun p' hp' => hall p' (List.mem_cons_of_mem p hp'))
      simpa [scan_points, hmid] using this

/-- The scan loop never touches the header fields of the drag state. -/
theorem scan_points_fields (i : Nat) :
    ∀ (q : List Prim) (d d1 : BezierDrag), scan_points i d q = some d1 →
      d1.bezier_id = d.bezier_id ∧ d1.entity = d.entity ∧
      d1.dragging = d.dragging ∧ d1.start_click = d.start_click := by
  intro q
  induction q with
  | nil =>
      intro d d1 h
      obtain rfl := Option.some.inj h
      exact ⟨rfl, rfl, rfl, rfl⟩
  | cons p rest ih =>
      intro d d1 h
      unfold scan_points at h
      rcases hmid : scanPoint i d p with _ | dmid
      · rw [hmid] at h; cases h
      · rw [hmid] at h
        obtain ⟨h1, h2, h3, h4⟩ := ih dmid d1 h
        obtain ⟨g1, g2, g3, g4⟩ := scanPoint_fields i d dmid p hmid
        exact ⟨h1.trans g1, h2.trans g2, h3.trans g3, h4.trans g4⟩

/-- After a successful scan loop, the slot of an anchor role `r` is either
untouched — in which case no primitive of the query carries a matching
`(id, r)` tag — or equal to the position carried by some matching primitive of
the query. -/
theorem scan_points_slot (i : Nat) (r : BezierShapeType) (hr : isAnchor r = true) :
    ∀ (q : List Prim) (d d1 : BezierDrag), scan_points i d q = some d1 →
      (anchorSlot d1 r = anchorSlot d r ∧
        ∀ p ∈ q, ∀ bs : BezierShape, p.ty = ShapeType.Bezier bs →
          ¬(bs.id = i ∧ bs.shape_type = r)) ∨
      (∃ p ∈ q, ∃ bs : BezierShape, p.ty = ShapeType.Bezier bs ∧
        bs.id = i ∧ bs.shape_type = r ∧ bs.point = anchorSlot d1 r) := by
  intro q
  induction q with
  | nil =>
      intro d d1 h
      obtain rfl := Option.some.inj h
      exact Or.inl ⟨rfl, by simp⟩
  | cons p rest ih =>
      intro d d1 h
      unfold scan_points at h
      rcases hmid : scanPoint i d p with _ | dmid
      · rw [hmid] at h; cases h
      · rw [hmid] at h
        by_cases hm : ∃ bs : BezierShape, p.ty = ShapeType.Bezier bs ∧
            bs.id = i ∧ bs.shape_type = r
        · obtain ⟨bs, hty, hid, hrole⟩ := hm
          have hslot : anchorSlot dmid r = bs.point := by
            have := scanPoint_slot_match i d dmid p bs hmid hty hid (hrole ▸ hr)
            rw [hrole] at this
            exact this.symm ▸ rfl
          rcases ih dmid d1 h with ⟨heq, _⟩ | ⟨p', hp', bs', h'⟩
          · refine Or.inr ⟨p, List.mem_cons_self p rest, bs, hty, hid, hrole, ?_⟩
            rw [heq, hslot]
          · exact Or.inr ⟨p', List.mem_cons_of_mem p hp', bs', h'⟩
        · push_neg at hm
          have hnm : ∀ bs : BezierShape, p.ty = ShapeType.Bezier bs →
              ¬(bs.id = i ∧ bs.shape_type = r) := by
            intro bs hty ⟨hid, hrole⟩
            exact hm bs hty hid hrole
          have hstep := scanPoint_slot_other i r d dmid p hmid hnm
          rcases ih dmid d1 h with ⟨heq, hno⟩ | ⟨p', hp', bs', h'⟩
          · refine Or.inl ⟨heq.trans hstep, ?_⟩
            intro p' hp' bs' hty'
            rcases List.mem_cons.mp hp' with rfl | hp'
            · exact hnm bs' hty'
            · exact hno p' hp' bs' hty'
          · exact Or.inr ⟨p', List.mem_cons_of_mem p hp', bs', h'⟩

/-- The query of the C6 counterexample: curve 1 is fully materialised (one
primitive of each anchor role, each carrying a position) but the query also
holds a stray `Start`-role tag of curve 1 carrying no position. -/
def brokenQuery : List Prim :=
  [⟨1, Shape.circleFill 5 ⟨0, 0⟩ (Color.srgba 1 0 0 1),
      ShapeType.Bezier ⟨BezierShapeType.Start, 1, some ⟨0, 0⟩⟩⟩,
   ⟨2, Shape.circleFill 5 ⟨1, 0⟩ (Color.srgba 1 0 0 1),
      ShapeType.Bezier ⟨BezierShapeType.ControlStart, 1, some ⟨1, 0⟩⟩⟩,
   ⟨3, Shape.circleFill 5 ⟨1, 1⟩ (Color.srgba 1 0 0 1),
      ShapeType.Bezier ⟨BezierShapeType.ControlEnd, 1, some ⟨1, 1⟩⟩⟩,
   ⟨4, Shape.circleFill 5 ⟨0, 1⟩ (Color.srgba 1 0 0 1),
      ShapeType.Bezier ⟨BezierShapeType.End, 1, some ⟨0, 1⟩⟩⟩,
   ⟨5, Shape.circleFill 5 ⟨2, 2⟩ (Color.srgba 1 0 0 1),
      ShapeType.Bezier ⟨BezierShapeType.Start, 1, none⟩⟩]

/-- Claim C6 (counterexample): the stated precondition — the live set contains,
for the clicked curve id, a curve-tagged primitive of each of the four anchor
roles each carrying a position — holds for `brokenQuery` (the four membership
conjuncts), yet `drag_start` on it panics (`none`): the scan loop `unwrap`s the
position of the stray positionless `Start` tag before the trailing assertions
are reached. -/
theorem drag_start_panics_despite_anchors :
    (Prim.mk 1 (Shape.circleFill 5 ⟨0, 0⟩ (Color.srgba 1 0 0 1))
      (ShapeType.Bezier ⟨BezierShapeType.Start, 1, some ⟨0, 0⟩⟩)) ∈ brokenQuery ∧
    (Prim.mk 2 (Shape.circleFill 5 ⟨1, 0⟩ (Color.srgba 1 0 0 1))
      (ShapeType.Bezier ⟨BezierShapeType.ControlStart, 1, some ⟨1, 0⟩⟩)) ∈ brokenQuery ∧
    (Prim.mk 3 (Shape.circleFill 5 ⟨1, 1⟩ (Color.srgba 1 0 0 1))
      (ShapeType.Bezier ⟨BezierShapeType.ControlEnd, 1, some ⟨1, 1⟩⟩)) ∈ brokenQuery ∧
    (Prim.mk 4 (Shape.circleFill 5 ⟨0, 1⟩ (Color.srgba 1 0 0 1))
      (ShapeType.Bezier ⟨BezierShapeType.End, 1, some ⟨0, 1⟩⟩)) ∈ brokenQuery ∧
    drag_start 1 ⟨0, 0⟩ brokenQuery BezierDrag.default = none := by
  refine ⟨?_, ?_, ?_, ?_, ?_⟩ <;> decide

/-- Claim C6 (amended): if the clicked primitive is curve-tagged, every
anchor-role primitive of its curve id in the query carries a position, and each
of the four anchor roles occurs for that id, then `drag_start` terminates
without panic or assertion failure, hides exactly the clicked primitive, and
the resulting drag state has all four anchor slots populated with positions
carried by matching primitives of the query (and its header fields set from
the clicked tag). -/
theorem drag_start_populates (target : Nat) (pos : Vec2) (query : List Prim)
    (drag : BezierDrag) (prim : Prim) (bs : BezierShape)
    (hfind : query.find? (fun p => p.entity == target) = some prim)
    (hty : prim.ty = ShapeType.Bezier bs)
    (hall : ∀ p ∈ query, ∀ bs2 : BezierShape, p.ty = ShapeType.Bezier bs2 →
      bs2.id = bs.id → isAnchor bs2.shape_type = true → bs2.point.isSome)
    (hroles : ∀ r : BezierShapeType, isAnchor r = true →
      ∃ p ∈ query, ∃ bs2 : BezierShape, p.ty = ShapeType.Bezier bs2 ∧
        bs2.id = bs.id ∧ bs2.shape_type = r ∧ bs2.point.isSome) :
    ∃ d1 : BezierDrag,
      drag_start target pos query drag = some ⟨[prim.entity], d1⟩ ∧
      d1.a.isSome ∧ d1.b.isSome ∧ d1.c.isSome ∧ d1.d.isSome ∧
      d1.bezier_id = bs.id ∧ d1.entity = some prim.entity ∧
      d1.dragging = bs.shape_type ∧ d1.start_click = some pos ∧
      (∀ r : BezierShapeType, isAnchor r = true →
        ∃ p ∈ query, ∃ bs2 : BezierShape, p.ty = ShapeType.Bezier bs2 ∧
          bs2.id = bs.id ∧ bs2.shape_type = r ∧ bs2.point = anchorSlot d1 r) := by
  have hscan : (scan_points bs.id
      { drag with
          bezier_id := bs.id, entity := some prim.entity,
          start_click := some pos, dragging := bs.shape_type } query).isSome :=
    scan_points_isSome bs.id query _ hall
  obtain ⟨d1, hd1⟩ := Option.isSome_iff_exists.mp hscan
  obtain ⟨hf1, hf2, hf3, hf4⟩ := scan_points_fields bs.id query _ d1 hd1
  have slotFact : ∀ r : BezierShapeType, isAnchor r = true →
      (∃ p ∈ query, ∃ bs2 : BezierShape, p.ty = ShapeType.Bezier bs2 ∧
        bs2.id = bs.id ∧ bs2.shape_type = r ∧ bs2.point = anchorSlot d1 r) ∧
      (anchorSlot d1 r).isSome := by
    intro r hr
    rcases scan_points_slot bs.id r hr query _ d1 hd1 with
      ⟨heq, hno⟩ | ⟨p', hp', bs2, hty2, hid2, hrole2, hpt2⟩
    · obtain ⟨p', hp', bs2, hty2, hid2, hrole2, _⟩ := hroles r hr
      exact absurd ⟨hid2, hrole2⟩ (hno p' hp' bs2 hty2)
    · refine ⟨⟨p', hp', bs2, hty2, hid2, hrole2, hpt2⟩, ?_⟩
      have hi := hall p' hp' bs2 hty2 hid2 (hrole2 ▸ hr)
      rw [hpt2] at hi
      exact hi
  have hA := slotFact BezierShapeType.Start rfl
  have hB := slotFact BezierShapeType.ControlStart rfl
  have hC := slotFact BezierShapeType.ControlEnd rfl
  have hD := slotFact BezierShapeType.End rfl
  have ha : d1.a.isSome = true := hA.2
  have hb : d1.b.isSome = true := hB.2
  have hc : d1.c.isSome = true := hC.2
  have hd : d1.d.isSome = true := hD.2
  have hmain : drag_start target pos query drag = some ⟨[prim.entity], d1⟩ := by
    unfold drag_start
    rw [hfind]
    dsimp only
    rw [hty]
    dsimp only
    rw [hd1]
    dsimp only
    rw [ha, hb, hc, hd]
    rfl
  exact ⟨d1, hmain, hA.2, hB.2, hC.2, hD.2, hf1, hf2, hf3, hf4,
    fun r hr => (slotFact r hr).1⟩

/-- The query of the C6 witness: curve 7 fully materialised with the
unit-square anchors, together with a positionless `Line` guide of curve 7 and
an unrelated `Main` primitive. -/
def liveQuery : List Prim :=
  [⟨1, Shape.circleFill 5 ⟨0, 0⟩ (Color.srgba 1 0 0 1),
      ShapeType.Bezier ⟨BezierShapeType.Start, 7, some ⟨0, 0⟩⟩⟩,
   ⟨2, Shape.circleFill 5 ⟨10, 0⟩ (Color.srgba 1 0 0 1),
      ShapeType.Bezier ⟨BezierShapeType.ControlStart, 7, some ⟨10, 0⟩⟩⟩,
   ⟨3, Shape.circleFill 5 ⟨10, 10⟩ (Color.srgba 1 0 0 1),
      ShapeType.Bezier ⟨BezierShapeType.ControlEnd, 7, some ⟨10, 10⟩⟩⟩,
   ⟨4, Shape.circleFill 5 ⟨0, 10⟩ (Color.srgba 1 0 0 1),
      ShapeType.Bezier ⟨BezierShapeType.End, 7, some ⟨0, 10⟩⟩⟩,
   ⟨5, Shape.lineStroke ⟨0, 0⟩ ⟨10, 0⟩ (Color.srgba 0 0 0 1) 1,
      ShapeType.Bezier ⟨BezierShapeType.Line, 7, none⟩⟩,
   ⟨6, Shape.circleFill 3 ⟨50, 50⟩ (Color.srgba 0 1 0 1), ShapeType.Main⟩]

/-- Claim C6 witness: clicking the `Start` marker (entity 1) of the fully
materialised curve 7 hides entity 1 and populates all four anchor slots. -/
theorem drag_start_populates_witness :
    (drag_start 1 ⟨9, 9⟩ liveQuery BezierDrag.default).map DragStartOut.hidden =
      some [1] ∧
    (drag_start 1 ⟨9, 9⟩ liveQuery BezierDrag.default).map
      (Option.isSome ∘ BezierDrag.a ∘ DragStartOut.drag) = some true ∧
    (drag_start 1 ⟨9, 9⟩ liveQuery BezierDrag.default).map
      (Option.isSome ∘ BezierDrag.b ∘ DragStartOut.drag) = some true ∧
    (drag_start 1 ⟨9, 9⟩ liveQuery BezierDrag.default).map
      (Option.isSome ∘ BezierDrag.c ∘ DragStartOut.drag) = some true ∧
    (drag_start 1 ⟨9, 9⟩ liveQuery BezierDrag.default).map
      (Option.isSome ∘ BezierDrag.d ∘ DragStartOut.drag) = some true := by
  obtain ⟨d1, h1, h2, h3, h4, h5, -⟩ :=
    drag_start_populates 1 ⟨9, 9⟩ liveQuery BezierDrag.default
      ⟨1, Shape.circleFill 5 ⟨0, 0⟩ (Color.srgba 1 0 0 1),
        ShapeType.Bezier ⟨BezierShapeType.Start, 7, some ⟨0, 0⟩⟩⟩
      ⟨BezierShapeType.Start, 7, some ⟨0, 0⟩⟩
      (by decide) rfl
      (by
        intro p hp bs2 hty2 hid2 hr2
        fin_cases hp <;>
          first
            | (injection hty2 with h2
               subst h2
               first
                 | rfl
                 | simp [isAnchor] at hr2)
            | injection hty2)
      (by
        intro r hr
        cases r
        case Start =>
          exact ⟨⟨1, Shape.circleFill 5 ⟨0, 0⟩ (Color.srgba 1 0 0 1),
              ShapeType.Bezier ⟨BezierShapeType.Start, 7, some ⟨0, 0⟩⟩⟩,
            by decide, ⟨BezierShapeType.Start, 7, some ⟨0, 0⟩⟩, rfl, rfl, rfl, rfl⟩
        case ControlStart =>
          exact ⟨⟨2, Shape.circleFill 5 ⟨10, 0⟩ (Color.srgba 1 0 0 1),
              ShapeType.Bezier ⟨BezierShapeType.ControlStart, 7, some ⟨10, 0⟩⟩⟩,
            by decide, ⟨BezierShapeType.ControlStart, 7, some ⟨10, 0⟩⟩, rfl, rfl, rfl, rfl⟩
        case ControlEnd =>
          exact ⟨⟨3, Shape.circleFill 5 ⟨10, 10⟩ (Color.srgba 1 0 0 1),
              ShapeType.Bezier ⟨BezierShapeType.ControlEnd, 7, some ⟨10, 10⟩⟩⟩,
            by decide, ⟨BezierShapeType.ControlEnd, 7, some ⟨10, 10⟩⟩, rfl, rfl, rfl, rfl⟩
        case End =>
          exact ⟨⟨4, Shape.circleFill 5 ⟨0, 10⟩ (Color.srgba 1 0 0 1),
              ShapeType.Bezier ⟨BezierShapeType.End, 7, some ⟨0, 10⟩⟩⟩,
            by decide, ⟨BezierShapeType.End, 7, some ⟨0, 10⟩⟩, rfl, rfl, rfl, rfl⟩
        case Line => simp [isAnchor] at hr
        case BezierLine => simp [isAnchor] at hr)
  rw [h1]
  exact ⟨rfl, by simpa using h2, by simpa using h3, by simpa using h4, by simpa using h5⟩

end BezierLib
